import Mathlib

set_option maxRecDepth 16384

/-!
Verification of the claims about `crcwc_to_sb.py`, the single-file ETL script
that harvests Core Research Center well-catalog records, scrapes the paired
HTML report pages, enriches records with Macrostrat geologic context, and maps
everything onto the ScienceBase item schema.

Modelling conventions (a shallow embedding of the Python):
  * Python values that flow through the script are JSON-decodable: we embed
    them as `JValue`.  A decoded JSON `null` *is* Python `None` (the json
    module decodes `null` to `None`), so the single constructor `JValue.null`
    plays both roles.
  * A JSON number with a fractional / exponent representation decodes to a
    Python `float`, a plain integer literal to a Python `int`; the script
    performs no arithmetic on floats (it only tests `isinstance(x, float)`
    and interpolates them into strings), so a float is carried as its
    decimal representation string (`repr`), which is also exactly what
    `json.dumps` re-emits for it.
  * A Python `dict` is an insertion-ordered association list
    `List (String × JValue)` with no repeated keys.
  * A fallible Python computation (subscripting a missing key, `.keys()` on a
    non-dict, `None[0:80]`, an unbound local, a `ValueError` from
    `list.index`, ...) is embedded in the `Option` monad: `none` means the
    Python raised an uncaught exception.
  * Network calls are not modelled; each function that performs one is
    embedded as a function of the *decoded response* (or, for
    `sb_item_from_crcwc`, of the parsed report page and of an oracle giving
    the enricher's answer for a coordinate pair).
-/

/-- A decoded JSON value / the Python values the script manipulates.
`null` is Python `None`. `jfloat` carries the float's decimal
representation (see the conventions above). -/
inductive JValue : Type where
  | null : JValue
  | bool : Bool → JValue
  | jint : Int → JValue
  | jfloat : String → JValue
  | str : String → JValue
  | arr : List JValue → JValue
  | obj : List (String × JValue) → JValue
deriving Inhabited

/-- Python `d[k]` on a dict: the value stored at the first (only) binding of
`k`.  `none` = `KeyError`. -/
def assoc : List (String × JValue) → String → Option JValue
  | [], _ => none
  | (k, v) :: rest, key => if k = key then some v else assoc rest key

/-- Python `v[k]` with a string key: only dicts support string subscripts
(`TypeError` on anything else). -/
def pyGet (v : JValue) (k : String) : Option JValue :=
  match v with
  | .obj kvs => assoc kvs k
  | _ => none

/-- Python `v is not None`. -/
def isNotNone (v : JValue) : Bool :=
  match v with
  | .null => false
  | _ => true

/-- `isinstance(v, float)` — note a decoded JSON integer is a Python `int`,
for which this is `False`. -/
def isFloatJ (v : JValue) : Bool :=
  match v with
  | .jfloat _ => true
  | _ => false

/-- "Numeric" in the sense of the spec: a decoded JSON number, whether it
became a Python `int` or a Python `float`. -/
def isNumericJ (v : JValue) : Bool :=
  match v with
  | .jint _ => true
  | .jfloat _ => true
  | _ => false

/-- One lowercase hexadecimal digit. -/
def hexDigit (n : Nat) : Char :=
  if n < 10 then Char.ofNat (48 + n) else Char.ofNat (87 + n)

/-- Four lowercase hexadecimal digits, as in json's `\uXXXX` escapes. -/
def hex4 (n : Nat) : String :=
  ⟨[hexDigit (n / 4096 % 16), hexDigit (n / 256 % 16),
    hexDigit (n / 16 % 16), hexDigit (n % 16)]⟩

/-- How `json.dumps` (default `ensure_ascii=True`) renders one character of a
string: pass printable ASCII through, use the short escapes, and emit
`\uXXXX` (a surrogate pair beyond the BMP) for everything else. -/
def jsonEscapeChar (c : Char) : String :=
  if c = '"' then "\\\""
  else if c = '\\' then "\\\\"
  else if c = '\n' then "\\n"
  else if c = '\r' then "\\r"
  else if c = '\t' then "\\t"
  else if c.toNat = 8 then "\\b"
  else if c.toNat = 12 then "\\f"
  else if 32 ≤ c.toNat ∧ c.toNat ≤ 126 then ⟨[c]⟩
  else if c.toNat < 65536 then "\\u" ++ hex4 c.toNat
  else
    "\\u" ++ hex4 (55296 + (c.toNat - 65536) / 1024) ++
    "\\u" ++ hex4 (56320 + (c.toNat - 65536) % 1024)

/-- `json.dumps` of a Python string. -/
def jsonString (s : String) : String :=
  "\"" ++ String.join (s.data.map jsonEscapeChar) ++ "\""

mutual

/-- `json.dumps` with its default separators (`", "` between items,
`": "` between a key and its value). -/
def dumps : JValue → String
  | .null => "null"
  | .bool true => "true"
  | .bool false => "false"
  | .jint n => toString n
  | .jfloat r => r
  | .str s => jsonString s
  | .arr xs => "[" ++ dumpsList xs ++ "]"
  | .obj kvs => "\x7b" ++ dumpsObj kvs ++ "\x7d"

/-- The comma-joined serializations of a list's elements. -/
def dumpsList : List JValue → String
  | [] => ""
  | [x] => dumps x
  | x :: y :: rest => dumps x ++ ", " ++ dumpsList (y :: rest)

/-- The comma-joined `"key": value` serializations of a dict's items. -/
def dumpsObj : List (String × JValue) → String
  | [] => ""
  | [(k, v)] => jsonString k ++ ": " ++ dumps v
  | (k, v) :: kv :: rest => jsonString k ++ ": " ++ dumps v ++ ", " ++ dumpsObj (kv :: rest)

end

/-- How Python's `repr` renders one character of a string quoted with `q`:
escape the backslash, the quote character and the usual control shorthands,
`\xNN` for the remaining control characters, everything else verbatim. -/
def pyReprChar (q : Char) (c : Char) : String :=
  if c = '\\' then "\\\\"
  else if c = q then "\\" ++ ⟨[q]⟩
  else if c = '\n' then "\\n"
  else if c = '\r' then "\\r"
  else if c = '\t' then "\\t"
  else if c.toNat < 32 ∨ c.toNat = 127 then
    "\\x" ++ ⟨[hexDigit (c.toNat / 16 % 16), hexDigit (c.toNat % 16)]⟩
  else ⟨[c]⟩

/-- Python `repr` of a string: single quotes, switching to double quotes when
the string holds a single quote but no double quote. -/
def pyReprStr (s : String) : String :=
  let q : Char := if s.contains '\'' ∧ ¬ s.contains '"' then '"' else '\''
  ⟨[q]⟩ ++ String.join (s.data.map (pyReprChar q)) ++ ⟨[q]⟩

mutual

/-- Python `repr` of a decoded JSON value. -/
def pyRepr : JValue → String
  | .null => "None"
  | .bool true => "True"
  | .bool false => "False"
  | .jint n => toString n
  | .jfloat r => r
  | .str s => pyReprStr s
  | .arr xs => "[" ++ pyReprList xs ++ "]"
  | .obj kvs => "\x7b" ++ pyReprObj kvs ++ "\x7d"

/-- The comma-joined reprs of a list's elements. -/
def pyReprList : List JValue → String
  | [] => ""
  | [x] => pyRepr x
  | x :: y :: rest => pyRepr x ++ ", " ++ pyReprList (y :: rest)

/-- The comma-joined `key: value` reprs of a dict's items. -/
def pyReprObj : List (String × JValue) → String
  | [] => ""
  | [(k, v)] => pyReprStr k ++ ": " ++ pyRepr v
  | (k, v) :: kv :: rest => pyReprStr k ++ ": " ++ pyRepr v ++ ", " ++ pyReprObj (kv :: rest)

end

/-- Python `str(v)` / what an f-string interpolates for `v`. -/
def pyStr : JValue → String
  | .null => "None"
  | .bool true => "True"
  | .bool false => "False"
  | .jint n => toString n
  | .jfloat r => r
  | .str s => s
  | .arr xs => pyRepr (.arr xs)
  | .obj kvs => pyRepr (.obj kvs)

/-- Python `str.capitalize()` (over the ASCII range the script uses): first
character uppercased, the rest lowercased. -/
def pyCapitalize (s : String) : String :=
  match s.data with
  | [] => ""
  | c :: rest => ⟨c.toUpper :: rest.map Char.toLower⟩

/-- Python `len` of a decoded JSON value (`TypeError` on the unsized ones). -/
def pyLen (v : JValue) : Option Nat :=
  match v with
  | .str s => some s.length
  | .arr xs => some xs.length
  | .obj kvs => some kvs.length
  | _ => none

/-- Python `v[0]`: first element of a list, first character of a string
(`IndexError` when empty, `TypeError` on the unindexable). -/
def pyIndex0 (v : JValue) : Option JValue :=
  match v with
  | .arr (x :: _) => some x
  | .arr [] => none
  | .str s => if s.isEmpty then none else some (.str (s.take 1))
  | _ => none

/-- Python iteration `for x in v`: list elements, a string's characters, a
dict's keys (`TypeError` otherwise). -/
def pyIter (v : JValue) : Option (List JValue) :=
  match v with
  | .arr xs => some xs
  | .str s => some (s.data.map (fun c => .str ⟨[c]⟩))
  | .obj kvs => some (kvs.map (fun kv => .str kv.1))
  | _ => none

/-- Python `v[0:80]` (sequence slicing; `TypeError` on non-sequences). -/
def pySlice80 (v : JValue) : Option JValue :=
  match v with
  | .str s => some (.str (s.take 80))
  | .arr xs => some (.arr (xs.take 80))
  | _ => none

/-- Python `s.split('/')`, over the string's characters: splitting at every
slash, with a leading, trailing or doubled slash contributing an empty
chunk, and `"".split('/') == [""]`. -/
def splitSlash : List Char → List (List Char)
  | [] => [[]]
  | c :: rest =>
    match splitSlash rest with
    | seg :: segs => if c = '/' then [] :: seg :: segs else (c :: seg) :: segs
    | [] => [[]]

/-- Python `s.split('/')[-1]`: `str.split` on a separator never returns an
empty list, so the last chunk always exists. -/
def splitLast (s : String) : String :=
  ⟨(splitSlash s.data).getLastD []⟩

/-- `property_mapping`: the static per-sample-type lookup table naming the
parent item and the three esoteric source property names. -/
def property_mapping : List (String × List (String × String)) :=
  [("core",
     [("parent_id", "4f4e49dae4b07f02db5e0486"),
      ("source_identifier", "libno"),
      ("site_operator", "oper"),
      ("api_identifier", "apiwel")]),
   ("cutting",
     [("parent_id", "4f4e49d8e4b07f02db5df2d2"),
      ("source_identifier", "chlibno"),
      ("site_operator", "operator"),
      ("api_identifier", "apinum")])]

/-- Lookup in an inner table of `property_mapping` (values are strings). -/
def assocS : List (String × String) → String → Option String
  | [], _ => none
  | (k, v) :: rest, key => if k = key then some v else assocS rest key

/-- `property_mapping[sample_type][field]` as the Python evaluates it. -/
def pmField (sample_type field : String) : Option String :=
  match assoc' property_mapping sample_type with
  | some table => assocS table field
  | none => none
where
  /-- Lookup in the outer table of `property_mapping`. -/
  assoc' : List (String × List (String × String)) → String → Option (List (String × String))
    | [], _ => none
    | (k, v) :: rest, key => if k = key then some v else assoc' rest key

/-- `crc_title`: the fixed prefix, the capitalized sample type, and the
interpolated source identifier. -/
def crc_title (sample_type : String) (source_identifier : JValue) : String :=
  "Core Research Center " ++ pyCapitalize sample_type ++ " " ++ pyStr source_identifier

/-- `crc_body`: the concatenated HTML body.  `crc_record` here is the
properties mapping the caller passes (`crc_record["properties"]` at the call
site); `additional_props` and `macrostrat_info` default to Python `None`,
i.e. `JValue.null`. -/
def crc_body (sample_type : String) (crc_record additional_props macrostrat_info : JValue) :
    Option String := do
  let srcF ← pmField sample_type "source_identifier"
  let opF ← pmField sample_type "site_operator"
  let srcV ← pyGet crc_record srcF
  let opV ← pyGet crc_record opF
  let base :=
    "<p>Core Research Center, " ++ sample_type ++ " " ++ pyStr srcV ++
      ", from well operated by " ++ pyStr opV ++ "</p>" ++
    "<h4>Properties from ArcGIS MapServer</h4>" ++
    "<div>" ++ dumps crc_record ++ "</div>"
  let withProps :=
    if isNotNone additional_props then
      base ++ "<h4>Properties from Web Page</h4>" ++
        "<div>" ++ dumps additional_props ++ "</div>"
    else base
  let withMacro :=
    if isNotNone macrostrat_info then
      withProps ++ "<h4>Geologic Map Information from Macrostrat</h4>" ++
        "<div>" ++ dumps macrostrat_info ++ "</div>"
    else withProps
  return withMacro

/-- `crc_contacts`: two constant contacts and the record's operator. -/
def crc_contacts (site_operator : JValue) : List JValue :=
  [.obj [("name", .str "Core Research Center"),
         ("oldPartyId", .jint 17172),
         ("type", .str "Data Owner"),
         ("contactType", .str "organization")],
   .obj [("name", .str "Jeannine Honey"),
         ("oldPartyId", .jint 4685),
         ("type", .str "Data Steward"),
         ("contactType", .str "person")],
   .obj [("name", site_operator),
         ("type", .str "Site Operator"),
         ("contactType", .str "organization")]]

/-- `crc_provenance`: the constant provenance record. -/
def crc_provenance : JValue :=
  .obj [("annotation", .str "Harvested from ArcGIS Server and Core Research Center Web Site")]

/-- `crc_identifiers`: the source unique key, then the library-number and
API-number identifiers whenever those record fields are not `None`.
`crc_record` is the properties mapping passed at the call site. -/
def crc_identifiers (identifier : JValue) (sample_type : String) (crc_record : JValue) :
    Option (List JValue) := do
  let srcF ← pmField sample_type "source_identifier"
  let apiF ← pmField sample_type "api_identifier"
  let srcV ← pyGet crc_record srcF
  let apiV ← pyGet crc_record apiF
  let base :=
    [JValue.obj [("type", .str "uniqueKey"),
                 ("scheme", .str "CRC Well Catalog Database ID"),
                 ("key", identifier)]]
  let withLib :=
    if isNotNone srcV then
      base ++ [.obj [("type", .str "uniqueKey"),
                     ("scheme", .str "CRC Library Number"),
                     ("key", srcV)]]
    else base
  let withApi :=
    if isNotNone apiV then
      withLib ++ [.obj [("type", .str "uniqueKey"),
                        ("scheme", .str "American Petroleum Institute Number"),
                        ("key", apiV)]]
    else withLib
  return withApi

/-- The data `extract_crc_data` assembles from one report page.  The Python
returns a plain dict that can only ever hold these four keys; a field that is
`none` is a key the dict does not hold.  A link is the anchor's `href`
attribute, which `Tag.get` reports as `None` when absent — hence
`Option String` for a single link. -/
structure ExtractedData : Type where
  depth_age_formation : Option (List (List (String × JValue)))
  thin_sections : Option (List (List (String × JValue)))
  photos : Option (List (Option String))
  documents : Option (List (Option String))

/-- `crc_weblinks`: the fixed report link, then one "download" entry per
scraped document link, then one per photo link. -/
def crc_weblinks (sample_type : String) (identifier : JValue)
    (extracted_data : Option ExtractedData) : Option (List JValue) := do
  let base :=
    [JValue.obj
      [("type", .str "webLink"),
       ("typeLabel", .str "Web Link"),
       ("uri", .str ("https://my.usgs.gov/crcwc/" ++ sample_type ++ "/report/" ++ pyStr identifier)),
       ("rel", .str "related"),
       ("title", .str "Core Research Center Well Catalog Web Page"),
       ("hidden", .bool false),
       ("itemWebLinkTypeId", .str "4f4e475de4b07f02db47debf")]]
  match extracted_data with
  | none => return base
  | some ed => do
    let docEntries ←
      match ed.documents with
      | none => pure []
      | some links =>
        -- `doc_link.split('/')` raises when a link is `None`.
        links.mapM (fun l => l.map (fun s =>
          JValue.obj
            [("type", .str "download"),
             ("typeLabel", .str "Download"),
             ("uri", .str s),
             ("rel", .str "related"),
             ("title", .str ("Core Research Center Analysis File " ++ splitLast s)),
             ("hidden", .bool false),
             ("itemWebLinkTypeId", .str "4f4e475de4b07f02db47dec0")]))
    let photoEntries ←
      match ed.photos with
      | none => pure []
      | some links =>
        links.mapM (fun l => l.map (fun s =>
          JValue.obj
            [("type", .str "download"),
             ("typeLabel", .str "Photo"),
             ("uri", .str s),
             ("rel", .str "related"),
             ("title", .str ("Core Research Center Photo " ++ splitLast s)),
             ("hidden", .bool false),
             ("itemWebLinkTypeId", .str "4f4e475de4b07f02db47dec0")]))
    return base ++ docEntries ++ photoEntries

/-- `crc_location`: the representational point from the record's geometry. -/
def crc_location (crc_record : JValue) : Option JValue := do
  let geo ← pyGet crc_record "geometry"
  let coords ← pyGet geo "coordinates"
  return .obj [("representationalPoint", coords)]

/-- One `\x7b"type": "Theme", "scheme": scheme, "name": name\x7d` tag. -/
def mkThemeTag (scheme : String) (name : JValue) : JValue :=
  .obj [("type", .str "Theme"), ("scheme", .str scheme), ("name", name)]

/-- `crc_tags`: one rock-type tag per entry of the `rocktype` list when its
first entry is not `None`, an age tag when `len(age) > 0`, a formation tag
when `len(name) > 0`, each name sliced to its first 80 items; the Python
returns `None` (here `some .null`) when no tag applied, and raises (here
`none`) when subscripting or slicing fails. -/
def crc_tags (macrostrat_info : JValue) : Option JValue := do
  let rocktype ← pyGet macrostrat_info "rocktype"
  let first ← pyIndex0 rocktype
  let rockTags ←
    if isNotNone first then do
      let elems ← pyIter rocktype
      elems.mapM (fun rt => (pySlice80 rt).map (mkThemeTag "Rock Type"))
    else pure []
  let ageV ← pyGet macrostrat_info "age"
  let ageLen ← pyLen ageV
  let ageTags ←
    if ageLen > 0 then do
      let nm ← pySlice80 ageV
      pure [mkThemeTag "Geologic Age" nm]
    else pure []
  let nameV ← pyGet macrostrat_info "name"
  let nameLen ← pyLen nameV
  let nameTags ←
    if nameLen > 0 then do
      let nm ← pySlice80 nameV
      pure [mkThemeTag "Geologic Formation" nm]
    else pure []
  let tags := rockTags ++ ageTags ++ nameTags
  if tags.isEmpty then return .null else return .arr tags

/-- `macrostrat_context`, as a function of the decoded JSON response `r`:
`r["success"]["data"]` when `"success" in r.keys() and "data" in
r["success"].keys()`, `None` when the short-circuited test is merely false,
and an uncaught `AttributeError`/`TypeError` (= `none`) when `.keys()` is
taken on a non-dict. -/
def macrostrat_context_resp (r : JValue) : Option JValue :=
  match r with
  | .obj kvs =>
    match assoc kvs "success" with
    | none => some .null
    | some sv =>
      match sv with
      | .obj svkvs =>
        match assoc svkvs "data" with
        | some d => some d
        | none => some .null
      | _ => none
  | _ => none

/-- One `td` cell of a report table: whether its class is `label`, its text,
and — when the cell holds an `<a>` — that anchor's `href` attribute
(`Tag.get` returning `None` when the attribute is absent). -/
structure HtmlCell : Type where
  isLabel : Bool
  text : String
  anchorHref : Option (Option String)

/-- One `<table class="report2">`: its `tr` rows in document order, each row
its `td` cells in order. -/
abbrev HtmlTable := List (List HtmlCell)

/-- One `<div class="report2">`: the `href` attributes of its
`<a title="see photo">` and `<a title="download analysis document">`
anchors, in document order. -/
structure LinkSection : Type where
  photoHrefs : List (Option String)
  docHrefs : List (Option String)

/-- The parse of one fetched report page, restricted to what
`extract_crc_data` selects from the soup: every `<table class="report2">`
and every `<div class="report2">`, in document order. -/
structure ReportPage : Type where
  tables : List HtmlTable
  sections : List LinkSection

/-- The elements of a list not yet in `seen`, each kept once. -/
def dedupAcc (seen : List (Option String)) : List (Option String) → List (Option String)
  | [] => []
  | x :: xs => if x ∈ seen then dedupAcc seen xs else x :: dedupAcc (x :: seen) xs

/-- `list(set(xs))`: the set of the hrefs of one link section.  The iteration
order of a Python `set` is unspecified; we fix first-occurrence order, and no
theorem below depends on the order inside a section. -/
def dedupFirst (xs : List (Option String)) : List (Option String) :=
  dedupAcc [] xs

/-- The header labels of the `depth_age_formation` template of
`target_schemas`. -/
def dafLabels : List String := ["Min Depth", "Max Depth", "Age", "Formation"]

/-- The header labels of the `thin_sections` template of `target_schemas`. -/
def tsLabels : List String := ["Sequence", "Min Depth", "Max Depth", "View"]

/-- The value one table cell contributes to its row mapping: the `href` of a
contained anchor if there is one (`None` when the attribute is missing), the
cell's text otherwise. -/
def cellData (c : HtmlCell) : JValue :=
  match c.anchorHref with
  | some (some h) => .str h
  | some none => .null
  | none => .str c.text

/-- One data row of a matched table: `d_this[labels[i]] = data` for each
`td` in order; `labels[i]` raises `IndexError` when the row has more cells
than the header has labels. -/
def rowData (labels : List String) (row : List HtmlCell) :
    Option (List (String × JValue)) :=
  (row.enum).mapM (fun ic => (labels.get? ic.1).map (fun l => (l, cellData ic.2)))

/-- The body of the per-table loop of `extract_crc_data`: read the labels of
the first row (`find("tr")` yields `None` — a crash — on a rowless table),
name the section by matching them against `target_schemas`
(`list.index` raises `ValueError` on no match), and convert the remaining
rows. -/
def processTable (t : HtmlTable) : Option (String × List (List (String × JValue))) := do
  let firstRow ← t.head?
  let labels := (firstRow.filter (fun c => c.isLabel)).map (fun c => c.text)
  let targetData ←
    if labels = dafLabels then some "depth_age_formation"
    else if labels = tsLabels then some "thin_sections"
    else none
  let rows ← t.tail.mapM (rowData labels)
  return (targetData, rows)

/-- The page's photo link list: each section's anchors deduplicated by URL,
the sections' contributions concatenated. -/
def pagePhotos (page : ReportPage) : List (Option String) :=
  page.sections.flatMap (fun s => dedupFirst s.photoHrefs)

/-- The page's document link list, gathered like `pagePhotos`. -/
def pageDocuments (page : ReportPage) : List (Option String) :=
  page.sections.flatMap (fun s => dedupFirst s.docHrefs)

/-- `extract_crc_data`, as a function of the parsed page: process every
report-class table (a table whose key was already set is reassigned, so the
last matching table's rows win), gather the photo and document links, attach
each list only when non-empty, and return `None` (`some none`) when the
resulting dict is empty. -/
def extract_crc_data (page : ReportPage) : Option (Option ExtractedData) := do
  let tds ← page.tables.mapM processTable
  let daf := ((tds.filter (fun p => p.1 = "depth_age_formation")).getLast?).map Prod.snd
  let ts := ((tds.filter (fun p => p.1 = "thin_sections")).getLast?).map Prod.snd
  let photos := pagePhotos page
  let documents := pageDocuments page
  if tds.isEmpty ∧ photos.isEmpty ∧ documents.isEmpty then
    return none
  else
    return some
      { depth_age_formation := daf
        thin_sections := ts
        photos := if photos.isEmpty then none else some photos
        documents := if documents.isEmpty then none else some documents }

/-- The fixed query parameters of `crcwc_items`, in source order. -/
def crcwc_params (record_count offset : Int) : List String :=
  ["where=0%3D0", "outFields=*", "returnGeometry=true", "returnIdsOnly=false",
   "returnCountOnly=false", "returnZ=false", "returnM=false",
   "returnDistinctValues=false",
   "resultOffset=" ++ toString offset,
   "resultRecordCount=" ++ toString record_count,
   "returnExtentsOnly=false", "f=geojson"]

/-- The query URL `crcwc_items` builds before issuing its request: layer 0
for "core", layer 1 for "cutting"; any other sample type leaves `layer`
unassigned, so the f-string raises `UnboundLocalError` (= `none`) and no
query is ever issued. -/
def crcwc_items_url (sample_type : String) (record_count offset : Int) : Option String :=
  (if sample_type = "core" then some (0 : Nat)
   else if sample_type = "cutting" then some 1
   else none).map
    (fun layer =>
      "https://my.usgs.gov/arcgis/rest/services/crcwc/crcwc/MapServer/" ++
        toString layer ++ "/query?" ++
        String.intercalate "&" (crcwc_params record_count offset))


/-- Lines 287-288: the scraped depth/age/formation rows override the
caller-supplied `additional_props` when present. -/
def sb_additional_props (extracted : Option ExtractedData) (additional_props : JValue) : JValue :=
  match extracted with
  | some ed =>
    match ed.depth_age_formation with
    | some rows => JValue.arr (rows.map .obj)
    | none => additional_props
  | none => additional_props

/-- Lines 293-302: the `sb_item` dict literal, fields in source order.
`propsV` is `crc_record["properties"]`, `idv` is `crc_record["id"]`. -/
def sb_base_item (sample_type : String) (propsV idv : JValue) (extracted : Option ExtractedData)
    (additional_props macrostrat_info : JValue) :
    Option (List (String × JValue)) := do
  let parentId ← pmField sample_type "parent_id"
  let identifiers ← crc_identifiers idv sample_type propsV
  let srcF ← pmField sample_type "source_identifier"
  let srcV ← pyGet propsV srcF
  let body ← crc_body sample_type propsV additional_props macrostrat_info
  let opF ← pmField sample_type "site_operator"
  let opV ← pyGet propsV opF
  let webLinks ← crc_weblinks sample_type idv extracted
  return [
     ("parentId", .str parentId),
     ("identifiers", .arr identifiers),
     ("title", .str (crc_title sample_type srcV)),
     ("body", .str body),
     ("contacts", .arr (crc_contacts opV)),
     ("provenance", crc_provenance),
     ("browseCategories", .arr [.str "Physical Item"]),
     ("webLinks", .arr webLinks)]

/-- Lines 304-310: conditionally attach the spatial point and the theme
tags to the built item. -/
def sb_item_tail (crc_record macrostrat_info : JValue) (base : List (String × JValue)) :
    Option (List (String × JValue)) := do
  let geo ← pyGet crc_record "geometry"
  let withSpatial ←
    if isNotNone geo then do
      let spatial ← crc_location crc_record
      pure (base ++ [("spatial", spatial)])
    else pure base
  if isNotNone macrostrat_info then do
    let item_tags ← crc_tags macrostrat_info
    pure (if isNotNone item_tags then withSpatial ++ [("tags", item_tags)] else withSpatial)
  else pure withSpatial

/-- Line 290's short-circuited
`isinstance(crc_record["properties"]["lat"], float) and
isinstance(crc_record["properties"]["lng"], float)`: when `lat` fails its
test, `lng` is never subscripted and the result is `some none` (test false);
when `lat` passes, `lng` is subscripted (`KeyError` — outer `none` — when
absent) and the result carries the coordinate pair exactly when `lng` passes
its test too. -/
def floatCoords (propsV lat : JValue) : Option (Option (JValue × JValue)) :=
  if isFloatJ lat then
    (pyGet propsV "lng").map (fun lng => if isFloatJ lng then some (lat, lng) else none)
  else some none

/-- `sb_item_from_crcwc`, as a function of the source feature `crc_record`,
the parsed report `page` its `extract_crc_data` call sees, and an `enricher`
oracle giving what `macrostrat_context` returns for a coordinate pair.
The returned `Bool` records whether the enricher was invoked (the branch at
the `isinstance` test of line 290, embedded as `floatCoords`); `none` is an
uncaught exception anywhere in the mapping. -/
def sb_item_from_crcwc (sample_type : String) (crc_record : JValue)
    (page : ReportPage) (enricher : JValue → JValue → JValue)
    (additional_props macrostrat_info : JValue) :
    Option (List (String × JValue) × Bool) := do
  let idv ← pyGet crc_record "id"
  let extracted ← extract_crc_data page
  let ap := sb_additional_props extracted additional_props
  let propsV ← pyGet crc_record "properties"
  let lat ← pyGet propsV "lat"
  let coords ← floatCoords propsV lat
  let called := coords.isSome
  let mi :=
    match coords with
    | some c => enricher c.1 c.2
    | none => macrostrat_info
  let base ← sb_base_item sample_type propsV idv extracted ap mi
  let final ← sb_item_tail crc_record mi base
  return (final, called)

/-- Helper: `v is not None` holds exactly off `JValue.null`. -/
theorem isNotNone_eq_true {v : JValue} (h : v ≠ .null) : isNotNone v = true := by
  cases v <;> simp_all [isNotNone]

/-- C9: for every sample type string and source identifier, `crc_title`
returns `"Core Research Center "`, the capitalized sample type, a space, and
the identifier; in particular `crc_title "core" "ABC123"` is
`"Core Research Center Core ABC123"`. -/
theorem crc_title_spec :
    (∀ (sample_type identifier : String),
      crc_title sample_type (.str identifier) =
        "Core Research Center " ++ pyCapitalize sample_type ++ " " ++ identifier) ∧
    crc_title "core" (.str "ABC123") = "Core Research Center Core ABC123" :=
  ⟨fun _ _ => rfl, by decide⟩

/-- C1: for a sample type in \x7b"core", "cutting"\x7d, a record whose
library-number and API-number fields are both `None` yields exactly one
identifier (the source unique key), and a record where both are non-`None`
yields exactly three, in order: source key, library number, API number. -/
theorem crc_identifiers_spec :
    ∀ (sample_type : String), sample_type = "core" ∨ sample_type = "cutting" →
    ∀ (props : List (String × JValue)) (identifier : JValue) (srcF apiF : String),
      pmField sample_type "source_identifier" = some srcF →
      pmField sample_type "api_identifier" = some apiF →
      (assoc props srcF = some .null → assoc props apiF = some .null →
        crc_identifiers identifier sample_type (.obj props) =
          some [.obj [("type", .str "uniqueKey"),
                      ("scheme", .str "CRC Well Catalog Database ID"),
                      ("key", identifier)]]) ∧
      (∀ lib api, assoc props srcF = some lib → lib ≠ .null →
        assoc props apiF = some api → api ≠ .null →
        crc_identifiers identifier sample_type (.obj props) =
          some [.obj [("type", .str "uniqueKey"),
                      ("scheme", .str "CRC Well Catalog Database ID"),
                      ("key", identifier)],
                .obj [("type", .str "uniqueKey"),
                      ("scheme", .str "CRC Library Number"),
                      ("key", lib)],
                .obj [("type", .str "uniqueKey"),
                      ("scheme", .str "American Petroleum Institute Number"),
                      ("key", api)]]) := by
  rintro st (rfl | rfl) props identifier srcF apiF hs ha <;>
  · injection hs with hs; injection ha with ha; subst hs; subst ha
    constructor
    · intro h1 h2
      simp [crc_identifiers, pmField, pmField.assoc', assocS, pyGet, h1, h2, isNotNone]
    · intro lib api h1 hl h2 ha2
      simp [crc_identifiers, pmField, pmField.assoc', assocS, pyGet, h1, h2,
        isNotNone_eq_true hl, isNotNone_eq_true ha2]

/-- Witness for C1: a concrete "core" record with both fields `None` maps to
the single source-key identifier, and one with both fields set maps to the
three identifiers in order. -/
theorem crc_identifiers_spec_witness :
    crc_identifiers (.jint 3) "core" (.obj [("libno", .null), ("apiwel", .null)]) =
      some [.obj [("type", .str "uniqueKey"),
                  ("scheme", .str "CRC Well Catalog Database ID"),
                  ("key", .jint 3)]] ∧
    crc_identifiers (.jint 3) "core" (.obj [("libno", .str "L"), ("apiwel", .str "A")]) =
      some [.obj [("type", .str "uniqueKey"),
                  ("scheme", .str "CRC Well Catalog Database ID"),
                  ("key", .jint 3)],
            .obj [("type", .str "uniqueKey"),
                  ("scheme", .str "CRC Library Number"),
                  ("key", .str "L")],
            .obj [("type", .str "uniqueKey"),
                  ("scheme", .str "American Petroleum Institute Number"),
                  ("key", .str "A")]] :=
  ⟨(crc_identifiers_spec "core" (Or.inl rfl) [("libno", .null), ("apiwel", .null)]
      (.jint 3) "libno" "apiwel" rfl rfl).1 rfl rfl,
   (crc_identifiers_spec "core" (Or.inl rfl) [("libno", .str "L"), ("apiwel", .str "A")]
      (.jint 3) "libno" "apiwel" rfl rfl).2 (.str "L") (.str "A") rfl (by simp) rfl (by simp)⟩

/-- C10: a sample type other than "core" and "cutting" leaves `layer`
unassigned, so `crcwc_items` raises an unbound-name error at the URL
f-string and never queries a layer (`crcwc_items_url` is `none`); under the
precondition the URL carries layer 0 for "core" and layer 1 for "cutting". -/
theorem crcwc_items_layer_spec :
    (∀ (sample_type : String) (record_count offset : Int),
       sample_type ≠ "core" → sample_type ≠ "cutting" →
       crcwc_items_url sample_type record_count offset = none) ∧
    (∀ record_count offset : Int, ∃ rest,
       crcwc_items_url "core" record_count offset =
         some ("https://my.usgs.gov/arcgis/rest/services/crcwc/crcwc/MapServer/0/query?" ++ rest)) ∧
    (∀ record_count offset : Int, ∃ rest,
       crcwc_items_url "cutting" record_count offset =
         some ("https://my.usgs.gov/arcgis/rest/services/crcwc/crcwc/MapServer/1/query?" ++ rest)) := by
  refine ⟨fun st rc off h1 h2 => by simp [crcwc_items_url, h1, h2],
    fun rc off => ?_, fun rc off => ?_⟩
  · refine ⟨String.intercalate "&" (crcwc_params rc off), ?_⟩
    have h : ("https://my.usgs.gov/arcgis/rest/services/crcwc/crcwc/MapServer/" ++
        toString (0 : Nat) ++ "/query?" : String) =
        "https://my.usgs.gov/arcgis/rest/services/crcwc/crcwc/MapServer/0/query?" := by decide
    simp [crcwc_items_url, ← h, String.append_assoc]
  · refine ⟨String.intercalate "&" (crcwc_params rc off), ?_⟩
    have h : ("https://my.usgs.gov/arcgis/rest/services/crcwc/crcwc/MapServer/" ++
        toString (1 : Nat) ++ "/query?" : String) =
        "https://my.usgs.gov/arcgis/rest/services/crcwc/crcwc/MapServer/1/query?" := by decide
    simp [crcwc_items_url, ← h, String.append_assoc]

/-- Witness for C10: the unknown sample type "sidewall" reaches no query
URL at all. -/
theorem crcwc_items_layer_spec_witness :
    crcwc_items_url "sidewall" 1000 0 = none :=
  crcwc_items_layer_spec.1 "sidewall" 1000 0 (by decide) (by decide)

/-- C4: whatever the sample type, the record-properties mapping and the
optional extras, any body `crc_body` produces contains the exact
`json.dumps` serialization of the record-properties mapping as a contiguous
substring. -/
theorem crc_body_contains_props :
    ∀ (sample_type : String) (props : List (String × JValue)) (ap mi : JValue) (b : String),
      crc_body sample_type (.obj props) ap mi = some b →
      ∃ p q, b = p ++ dumps (.obj props) ++ q := by
  intro st props ap mi b h
  simp only [crc_body, Option.bind_eq_bind, Option.bind_eq_some, Option.pure_def,
    Option.some.injEq] at h
  obtain ⟨srcF, h1, opF, h2, srcV, h3, opV, h4, hb⟩ := h
  subst hb
  refine ⟨"<p>Core Research Center, " ++ st ++ " " ++ pyStr srcV ++
    ", from well operated by " ++ pyStr opV ++
    "</p><h4>Properties from ArcGIS MapServer</h4><div>", ?_⟩
  split <;> split
  · exact ⟨"</div><h4>Properties from Web Page</h4><div>" ++ dumps ap ++
      "</div><h4>Geologic Map Information from Macrostrat</h4><div>" ++ dumps mi ++ "</div>",
      by simp [String.append_assoc]⟩
  · exact ⟨"</div><h4>Geologic Map Information from Macrostrat</h4><div>" ++ dumps mi ++ "</div>",
      by simp [String.append_assoc]⟩
  · exact ⟨"</div><h4>Properties from Web Page</h4><div>" ++ dumps ap ++ "</div>",
      by simp [String.append_assoc]⟩
  · exact ⟨"</div>", by simp [String.append_assoc]⟩

/-- Witness for C4: the body built for a small concrete "core" record indeed
embeds the serialization of its properties. -/
theorem crc_body_contains_props_witness :
    ∃ p q,
      ("<p>Core Research Center, core A, from well operated by B</p><h4>Properties from ArcGIS MapServer</h4><div>\x7b\"libno\": \"A\", \"oper\": \"B\", \"apiwel\": null\x7d</div>" : String) =
        p ++ dumps (.obj [("libno", .str "A"), ("oper", .str "B"), ("apiwel", .null)]) ++ q :=
  crc_body_contains_props "core" [("libno", .str "A"), ("oper", .str "B"), ("apiwel", .null)]
    .null .null _ (by decide)

/-- The title string of a built web-link entry (a projection used to state
counterexamples over decidable types). -/
def titleOf (v : JValue) : Option String :=
  match pyGet v "title" with
  | some (.str s) => some s
  | _ => none

/-- Counterexample to C2 as stated: for scraped data with the single document
link `"a/d.pdf"` and the single photo link `"p/x.jpg"`, `crc_weblinks` does
return three entries in the claimed order, but the photo entry's title is
`"Core Research Center Photo x.jpg"` — not `"Photo"` followed by the trailing
path segment (`"Photo x.jpg"`) — and the document entry's title is
`"Core Research Center Analysis File d.pdf"`, not the bare segment. -/
theorem crc_weblinks_photo_title_counterexample :
    (crc_weblinks "core" (.str "1")
        (some ⟨none, none, some [some "p/x.jpg"], some [some "a/d.pdf"]⟩)).map (List.map titleOf) =
      some [some "Core Research Center Well Catalog Web Page",
            some "Core Research Center Analysis File d.pdf",
            some "Core Research Center Photo x.jpg"] ∧
    some "Core Research Center Photo x.jpg" ≠ some ("Photo " ++ splitLast "p/x.jpg") := by
  exact ⟨by decide, by decide⟩

/-- The fixed report web link `crc_weblinks` always emits first. -/
def reportLinkObj (sample_type : String) (identifier : JValue) : JValue :=
  .obj [("type", .str "webLink"),
        ("typeLabel", .str "Web Link"),
        ("uri", .str ("https://my.usgs.gov/crcwc/" ++ sample_type ++ "/report/" ++ pyStr identifier)),
        ("rel", .str "related"),
        ("title", .str "Core Research Center Well Catalog Web Page"),
        ("hidden", .bool false),
        ("itemWebLinkTypeId", .str "4f4e475de4b07f02db47debf")]

/-- The "download" entry emitted for a scraped document link. -/
def docLinkObj (d : String) : JValue :=
  .obj [("type", .str "download"),
        ("typeLabel", .str "Download"),
        ("uri", .str d),
        ("rel", .str "related"),
        ("title", .str ("Core Research Center Analysis File " ++ splitLast d)),
        ("hidden", .bool false),
        ("itemWebLinkTypeId", .str "4f4e475de4b07f02db47dec0")]

/-- The "download" entry emitted for a scraped photo link. -/
def photoLinkObj (p : String) : JValue :=
  .obj [("type", .str "download"),
        ("typeLabel", .str "Photo"),
        ("uri", .str p),
        ("rel", .str "related"),
        ("title", .str ("Core Research Center Photo " ++ splitLast p)),
        ("hidden", .bool false),
        ("itemWebLinkTypeId", .str "4f4e475de4b07f02db47dec0")]

/-- C2 as amended: for every sample type and identifier, scraped data with
exactly one document link and one photo link yields exactly three entries in
order — the fixed report web link, then a "download"-typed document entry
titled `"Core Research Center Analysis File "` plus the trailing path
segment, then a "download"-typed photo entry (typeLabel "Photo") titled
`"Core Research Center Photo "` plus the trailing path segment. -/
theorem crc_weblinks_spec :
    ∀ (sample_type : String) (identifier : JValue)
      (daf ts : Option (List (List (String × JValue)))) (d p : String),
      crc_weblinks sample_type identifier (some ⟨daf, ts, some [some p], some [some d]⟩) =
        some [reportLinkObj sample_type identifier, docLinkObj d, photoLinkObj p] :=
  fun _ _ _ _ _ _ => rfl

/-- Helper: a non-empty string has positive length. -/
theorem String.length_pos_of_ne_empty {s : String} (h : s ≠ "") : 0 < s.length := by
  cases s with
  | mk data =>
    cases data with
    | nil => simp at h
    | cons c cs => simp [String.length]

/-- Helper: slicing a string `[0:80]` keeps its first 80 characters. -/
theorem pySlice80_str (s : String) : pySlice80 (.str s) = some (.str (s.take 80)) := rfl

/-- The rock-type tags the loop of `crc_tags` produces for a list of
rock-type strings. -/
def rockTagList (rts : List String) : List JValue :=
  rts.map (fun s => mkThemeTag "Rock Type" (.str (s.take 80)))

/-- The age tag `crc_tags` produces: one tag when the age string is
non-empty, nothing otherwise. -/
def ageTagList (age : String) : List JValue :=
  if age = "" then [] else [mkThemeTag "Geologic Age" (.str (age.take 80))]

/-- The formation tag `crc_tags` produces: one tag when the name string is
non-empty, nothing otherwise. -/
def nameTagList (name : String) : List JValue :=
  if name = "" then [] else [mkThemeTag "Geologic Formation" (.str (name.take 80))]

/-- A geologic-context mapping with a rock-type list, an age string and a
formation-name string. -/
def geoContextMap (rts : List JValue) (age name : String) : JValue :=
  .obj [("rocktype", .arr rts), ("age", .str age), ("name", .str name)]

/-- Helper: the rock-type loop of `crc_tags` over a list of strings maps each
to its tag (stated over `List.mapM`'s accumulator loop). -/
theorem mapM_rock_loop (l : List String) (acc : List JValue) :
    List.mapM.loop (fun rt => Option.map (mkThemeTag "Rock Type") (pySlice80 rt))
        (l.map JValue.str) acc =
      some (acc.reverse ++ rockTagList l) := by
  induction l generalizing acc with
  | nil => simp [List.mapM.loop, rockTagList]
  | cons h t ih => simp [List.mapM.loop, pySlice80_str, ih, rockTagList]

/-- Helper: `mapM_rock_loop` for a non-empty string list, in the shape the
unfolded `crc_tags` exposes. -/
theorem mapM_rock_cons (s : String) (rts : List String) :
    List.mapM.loop (fun rt => Option.map (mkThemeTag "Rock Type") (pySlice80 rt))
        (JValue.str s :: rts.map JValue.str) [] =
      some (rockTagList (s :: rts)) := by
  have h := mapM_rock_loop (s :: rts) []
  simpa using h

/-- The length of a JSON array (a projection used to state counterexamples
over decidable types). -/
def jarrLen : JValue → Option Nat
  | .arr xs => some xs.length
  | _ => none

/-- Counterexample to C3 as stated: for the geologic context with rock types
`["granite", "basalt"]`, empty age and empty name, only one category (rock
type) is populated, yet `crc_tags` returns two tags — one per rock-type
entry — not "exactly one tag per populated category". -/
theorem crc_tags_counterexample :
    (crc_tags (geoContextMap [.str "granite", .str "basalt"] "" "")).map jarrLen =
      some (some 2) ∧ (2 : Nat) ≠ 1 := by
  exact ⟨by decide, by decide⟩

/-- Helper for C3: `crc_tags` when the first rock type is `None`. -/
theorem crc_tags_null_first (rest : List JValue) (age name : String) :
    crc_tags (geoContextMap (.null :: rest) age name) =
      some (if age = "" ∧ name = "" then .null
            else .arr (ageTagList age ++ nameTagList name)) := by
  by_cases ha : age = "" <;> by_cases hn : name = "" <;>
    simp [crc_tags, geoContextMap, pyGet, assoc, pyIndex0, isNotNone, pyLen, pySlice80,
      ageTagList, nameTagList, ha, hn, String.length_pos_of_ne_empty,
      Option.bind_eq_bind]

/-- Helper for C3: `crc_tags` when the rock types are strings with a first
entry present. -/
theorem crc_tags_str_first (s : String) (rts : List String) (age name : String) :
    crc_tags (geoContextMap ((s :: rts).map .str) age name) =
      some (.arr (rockTagList (s :: rts) ++ ageTagList age ++ nameTagList name)) := by
  by_cases ha : age = "" <;> by_cases hn : name = "" <;>
    simp [crc_tags, geoContextMap, pyGet, assoc, pyIndex0, isNotNone, pyLen, pyIter,
      pySlice80_str, mapM_rock_cons, ageTagList, nameTagList, rockTagList, ha, hn,
      String.length_pos_of_ne_empty, Option.bind_eq_bind]

/-- C3 as amended: a geologic context whose rock-type list starts with `None`
and whose age and name are empty yields `None`; otherwise `crc_tags` yields
one tag per rock-type entry when the first rock type is non-null (not one per
category), plus one age tag when the age is non-empty and one formation tag
when the name is non-empty, every tag name truncated to 80 characters. -/
theorem crc_tags_spec :
    (∀ (rest : List JValue) (age name : String),
       crc_tags (geoContextMap (.null :: rest) age name) =
         some (if age = "" ∧ name = "" then .null
               else .arr (ageTagList age ++ nameTagList name))) ∧
    (∀ (s : String) (rts : List String) (age name : String),
       crc_tags (geoContextMap ((s :: rts).map .str) age name) =
         some (.arr (rockTagList (s :: rts) ++ ageTagList age ++ nameTagList name))) :=
  ⟨crc_tags_null_first, crc_tags_str_first⟩

/-- Counterexample to C5 as stated: the decoded response
`\x7b"success": 5\x7d` has a "success" key whose value holds no "data" key, so
the claim demands `None`; the code instead evaluates `r["success"].keys()`
on the integer `5` and raises `AttributeError` — it returns nothing at all. -/
theorem macrostrat_context_counterexample :
    macrostrat_context_resp (.obj [("success", .jint 5)]) = none ∧
    (none : Option JValue) ≠ some .null := by
  exact ⟨rfl, by simp⟩

/-- C5 as amended: over decoded object responses, `macrostrat_context`
returns `None` when "success" is absent; returns `r["success"]["data"]`
(so `None` when "data" is absent) when the "success" value is an object; and
raises — returning nothing — when the "success" value is a non-object or the
response itself is not an object. -/
theorem macrostrat_context_spec :
    (∀ (kvs : List (String × JValue)), assoc kvs "success" = none →
       macrostrat_context_resp (.obj kvs) = some .null) ∧
    (∀ (kvs sv : List (String × JValue)),
       assoc kvs "success" = some (.obj sv) →
       macrostrat_context_resp (.obj kvs) = some ((assoc sv "data").getD .null)) ∧
    (∀ (kvs : List (String × JValue)) (sv : JValue),
       assoc kvs "success" = some sv → (∀ svkvs, sv ≠ .obj svkvs) →
       macrostrat_context_resp (.obj kvs) = none) ∧
    (∀ r : JValue, (∀ kvs, r ≠ .obj kvs) → macrostrat_context_resp r = none) := by
  refine ⟨fun kvs h => by simp [macrostrat_context_resp, h],
    fun kvs sv h => ?_, fun kvs sv h h2 => ?_, fun r h => ?_⟩
  · cases hd : assoc sv "data" <;> simp [macrostrat_context_resp, h, hd]
  · cases sv <;> simp_all [macrostrat_context_resp]
  · cases r <;> simp_all [macrostrat_context_resp]

/-- Witness for C5: a response whose "success" object carries a "data"
member maps to that payload, and one whose "success" object lacks it maps
to `None`. -/
theorem macrostrat_context_spec_witness :
    macrostrat_context_resp (.obj [("success", .obj [("data", .jint 7)])]) =
      some ((assoc [("data", .jint 7)] "data").getD .null) ∧
    macrostrat_context_resp (.obj [("other", .jint 1)]) = some .null :=
  ⟨macrostrat_context_spec.2.1 [("success", .obj [("data", .jint 7)])] [("data", .jint 7)] rfl,
   macrostrat_context_spec.1 [("other", .jint 1)] rfl⟩

/-- Helper: nothing `dedupAcc` emits is already in `seen`. -/
theorem mem_dedupAcc {y : Option String} :
    ∀ (xs seen : List (Option String)), y ∈ dedupAcc seen xs → y ∉ seen := by
  intro xs
  induction xs with
  | nil => intro seen h; simp [dedupAcc] at h
  | cons x t ih =>
    intro seen h
    by_cases hx : x ∈ seen
    · simp only [dedupAcc, if_pos hx] at h
      exact ih seen h
    · simp only [dedupAcc, if_neg hx] at h
      rcases List.mem_cons.mp h with rfl | hmem
      · exact hx
      · intro hy
        exact ih (x :: seen) hmem (List.mem_cons_of_mem x hy)

/-- Helper: `dedupAcc` never emits an element twice. -/
theorem dedupAcc_nodup : ∀ (xs seen : List (Option String)), (dedupAcc seen xs).Nodup := by
  intro xs
  induction xs with
  | nil => intro seen; simp [dedupAcc]
  | cons x t ih =>
    intro seen
    by_cases hx : x ∈ seen
    · simp only [dedupAcc, if_pos hx]; exact ih seen
    · simp only [dedupAcc, if_neg hx]
      refine List.nodup_cons.mpr ⟨fun hmem => ?_, ih (x :: seen)⟩
      exact mem_dedupAcc t (x :: seen) hmem (List.mem_cons_self x seen)

/-- Helper: `list(set(...))` of one section's links holds no duplicates. -/
theorem dedupFirst_nodup (xs : List (Option String)) : (dedupFirst xs).Nodup :=
  dedupAcc_nodup xs []

/-- Counterexample to C8 as stated: a page with two link sections that both
carry the photo URL `"x"` yields the photo list `["x", "x"]` — the
deduplication is per section, not across the whole page, so the returned
list holds a duplicate URL. -/
theorem extract_crc_data_dedup_counterexample :
    (extract_crc_data ⟨[], [⟨[some "x"], []⟩, ⟨[some "x"], []⟩]⟩).map
        (Option.map (fun ed => ed.photos)) =
      some (some (some [some "x", some "x"])) ∧
    ¬ ([some "x", some "x"] : List (Option String)).Nodup := by
  exact ⟨by decide, by decide⟩

/-- C8 as amended: the photo and document lists `extract_crc_data` returns
are the concatenation, over the page's link sections, of each section's
URL-deduplicated anchors: within one section's contribution no URL repeats,
but a URL appearing in two sections appears twice in the page list. -/
theorem extract_crc_data_dedup_spec :
    ∀ (page : ReportPage) (ed : ExtractedData),
      extract_crc_data page = some (some ed) →
      (∀ l, ed.photos = some l → l = pagePhotos page) ∧
      (∀ l, ed.documents = some l → l = pageDocuments page) ∧
      (∀ s ∈ page.sections, (dedupFirst s.photoHrefs).Nodup ∧ (dedupFirst s.docHrefs).Nodup) := by
  intro page ed h
  simp only [extract_crc_data, Option.bind_eq_bind, Option.bind_eq_some] at h
  obtain ⟨tds, htds, h⟩ := h
  refine ⟨?_, ?_, fun s _ => ⟨dedupFirst_nodup _, dedupFirst_nodup _⟩⟩ <;>
  · intro l hl
    split at h <;> simp only [Option.pure_def, Option.some.injEq] at h
    · simp at h
    · subst h
      split at hl <;> simp_all

/-- Witness for C8: on the page with one section listing the photo URL "x"
twice, the returned photo list is exactly the deduplicated section list. -/
theorem extract_crc_data_dedup_spec_witness :
    ([some "x"] : List (Option String)) = pagePhotos ⟨[], [⟨[some "x", some "x"], []⟩]⟩ :=
  (extract_crc_data_dedup_spec ⟨[], [⟨[some "x", some "x"], []⟩]⟩
    ⟨none, none, some [some "x"], none⟩ rfl).1 [some "x"] rfl

/-- Counterexample to C6 as stated: a page whose single report-class table
has header label `"X"` — matching neither known template — and no photo or
document anchors satisfies the claim's hypothesis, but the code raises
`ValueError` at `list.index` instead of returning `None`. -/
theorem extract_crc_data_counterexample :
    (extract_crc_data ⟨[[[⟨true, "X", none⟩]]], []⟩).isSome = false := by
  decide

/-- Helper for C6: a page with no report-class tables and no link anchors
maps to `None`. -/
theorem extract_crc_data_empty (page : ReportPage) (ht : page.tables = [])
    (hs : ∀ s ∈ page.sections, s.photoHrefs = [] ∧ s.docHrefs = []) :
    extract_crc_data page = some none := by
  have hp : pagePhotos page = [] := by
    simp only [pagePhotos, List.flatMap_eq_nil_iff]
    intro s hsm
    rw [(hs s hsm).1]
    rfl
  have hd : pageDocuments page = [] := by
    simp only [pageDocuments, List.flatMap_eq_nil_iff]
    intro s hsm
    rw [(hs s hsm).2]
    rfl
  simp [extract_crc_data, ht, hp, hd, Option.bind_eq_bind, List.mapM.loop]

/-- Helper for C6: a successfully returned mapping holds exactly the
populated sections and link lists. -/
theorem extract_crc_data_populated (page : ReportPage) (ed : ExtractedData)
    (tds : List (String × List (List (String × JValue))))
    (h : extract_crc_data page = some (some ed))
    (htds : page.tables.mapM processTable = some tds) :
    (ed.depth_age_formation.isSome ↔ "depth_age_formation" ∈ tds.map Prod.fst) ∧
    (ed.thin_sections.isSome ↔ "thin_sections" ∈ tds.map Prod.fst) ∧
    (ed.photos.isSome ↔ pagePhotos page ≠ []) ∧
    (ed.documents.isSome ↔ pageDocuments page ≠ []) := by
  simp only [extract_crc_data, Option.bind_eq_bind, Option.bind_eq_some] at h
  obtain ⟨tds2, htds2, h⟩ := h
  rw [htds] at htds2
  injection htds2 with htds2
  subst htds2
  split at h <;> simp only [Option.pure_def, Option.some.injEq] at h
  · simp at h
  · subst h
    refine ⟨?_, ?_, ?_, ?_⟩
    · simp only [Option.isSome_map', List.getLast?_isSome, Ne, List.filter_eq_nil_iff,
        List.mem_map, not_forall]
      simp
    · simp only [Option.isSome_map', List.getLast?_isSome, Ne, List.filter_eq_nil_iff,
        List.mem_map, not_forall]
      simp
    · split <;> simp_all [List.isEmpty_iff]
    · split <;> simp_all [List.isEmpty_iff]

/-- C6 as amended: a fetched page with no report-class tables at all and no
photo or document anchors maps to `None`; when `extract_crc_data` does
return a mapping, it holds exactly the populated table sections (one key per
template name produced by some table) and exactly the non-empty link lists.
(A report-class table matching neither template raises `ValueError` instead,
see the counterexample.) -/
theorem extract_crc_data_spec :
    (∀ page : ReportPage, page.tables = [] →
       (∀ s ∈ page.sections, s.photoHrefs = [] ∧ s.docHrefs = []) →
       extract_crc_data page = some none) ∧
    (∀ (page : ReportPage) (ed : ExtractedData)
       (tds : List (String × List (List (String × JValue)))),
       extract_crc_data page = some (some ed) →
       page.tables.mapM processTable = some tds →
       ((ed.depth_age_formation.isSome ↔ "depth_age_formation" ∈ tds.map Prod.fst) ∧
        (ed.thin_sections.isSome ↔ "thin_sections" ∈ tds.map Prod.fst) ∧
        (ed.photos.isSome ↔ pagePhotos page ≠ []) ∧
        (ed.documents.isSome ↔ pageDocuments page ≠ []))) :=
  ⟨extract_crc_data_empty, fun page ed tds h htds => extract_crc_data_populated page ed tds h htds⟩

/-- Witness for C6: the empty page maps to `None`, and on a page with one
photo anchor the populated-lists characterization holds concretely. -/
theorem extract_crc_data_spec_witness :
    extract_crc_data ⟨[], [⟨[], []⟩]⟩ = some none ∧
    (((⟨none, none, some [some "x"], none⟩ : ExtractedData).photos.isSome ↔
       pagePhotos ⟨[], [⟨[some "x"], []⟩]⟩ ≠ [])) :=
  ⟨extract_crc_data_spec.1 ⟨[], [⟨[], []⟩]⟩ rfl
    (by intro s hs; simp only [List.mem_singleton] at hs; subst hs; exact ⟨rfl, rfl⟩),
   (extract_crc_data_spec.2 ⟨[], [⟨[some "x"], []⟩]⟩ ⟨none, none, some [some "x"], none⟩
      [] rfl rfl).2.2.1⟩

/-- A source feature whose coordinates decoded as JSON integers: present and
numeric, but Python `int`s, not `float`s. -/
def intCoordRecord : JValue :=
  .obj [("id", .jint 1),
        ("properties", .obj [("lat", .jint 40), ("lng", .jint (-105)),
                             ("libno", .str "L1"), ("oper", .str "Op"), ("apiwel", .null)]),
        ("geometry", .null)]

/-- The same feature with float-typed coordinates. -/
def floatCoordRecord : JValue :=
  .obj [("id", .jint 1),
        ("properties", .obj [("lat", .jfloat "40.1"), ("lng", .jfloat "-105.2"),
                             ("libno", .str "L1"), ("oper", .str "Op"), ("apiwel", .null)]),
        ("geometry", .null)]

/-- Counterexample to C7 as stated: on a record whose `lat` and `lng` are
present and numeric — the JSON integers 40 and -105 — the mapper completes
without ever invoking the Geologic Enricher (the returned invocation flag is
`false`), because `isinstance(x, float)` is `False` for a Python `int`. -/
theorem sb_item_enricher_counterexample :
    ((pyGet intCoordRecord "properties").bind (fun p => pyGet p "lat")).map isNumericJ =
      some true ∧
    ((pyGet intCoordRecord "properties").bind (fun p => pyGet p "lng")).map isNumericJ =
      some true ∧
    (sb_item_from_crcwc "core" intCoordRecord ⟨[], []⟩ (fun _ _ => .null) .null .null).map
        Prod.snd = some false := by
  exact ⟨by decide, by decide, by decide⟩

/-- A source feature with a non-float `lat` and no `lng` key at all: the
short-circuited test never reads `lng`, so the mapper completes. -/
def noLngRecord : JValue :=
  .obj [("id", .jint 1),
        ("properties", .obj [("lat", .jint 40),
                             ("libno", .str "L1"), ("oper", .str "Op"), ("apiwel", .null)]),
        ("geometry", .null)]

/-- C7 as amended: on every completing run of the mapper, the Geologic
Enricher is invoked exactly when the short-circuited `isinstance` tests both
succeed: the record's `lat` value is a Python float and — only then is `lng`
read at all — its `lng` value is a Python float too.  In particular a
present, numeric integer coordinate does not trigger the enricher. -/
theorem sb_item_enricher_spec :
    (∀ (sample_type : String) (crc_record : JValue) (page : ReportPage)
       (enricher : JValue → JValue → JValue) (additional_props macrostrat_info : JValue)
       (propsV lat : JValue),
       pyGet crc_record "properties" = some propsV →
       pyGet propsV "lat" = some lat →
       isFloatJ lat = false →
       (sb_item_from_crcwc sample_type crc_record page enricher
           additional_props macrostrat_info).isSome = true →
       (sb_item_from_crcwc sample_type crc_record page enricher
           additional_props macrostrat_info).map Prod.snd = some false) ∧
    (∀ (sample_type : String) (crc_record : JValue) (page : ReportPage)
       (enricher : JValue → JValue → JValue) (additional_props macrostrat_info : JValue)
       (propsV lat lng : JValue),
       pyGet crc_record "properties" = some propsV →
       pyGet propsV "lat" = some lat →
       isFloatJ lat = true →
       pyGet propsV "lng" = some lng →
       (sb_item_from_crcwc sample_type crc_record page enricher
           additional_props macrostrat_info).isSome = true →
       (sb_item_from_crcwc sample_type crc_record page enricher
           additional_props macrostrat_info).map Prod.snd = some (isFloatJ lng)) := by
  constructor
  · intro st rec page e ap mi propsV lat hp hlat hfl hsome
    cases hres : sb_item_from_crcwc st rec page e ap mi with
    | none => rw [hres] at hsome; simp at hsome
    | some pr =>
      have hres2 := hres
      simp only [sb_item_from_crcwc, Option.bind_eq_bind, Option.bind_eq_some, Option.pure_def,
        Option.some.injEq] at hres2
      obtain ⟨idv, h1, ed, h2, pV, hpV, la, hla, coords, hcoords, base, hbase, final, hfinal,
        heqpair⟩ := hres2
      rw [hp] at hpV
      injection hpV with hpV
      subst hpV
      rw [hlat] at hla
      injection hla with hla
      subst hla
      rw [floatCoords, hfl] at hcoords
      simp only [Bool.false_eq_true, if_false, Option.some.injEq] at hcoords
      subst hcoords
      rw [← heqpair]
      simp
  · intro st rec page e ap mi propsV lat lng hp hlat hfl hlng hsome
    cases hres : sb_item_from_crcwc st rec page e ap mi with
    | none => rw [hres] at hsome; simp at hsome
    | some pr =>
      have hres2 := hres
      simp only [sb_item_from_crcwc, Option.bind_eq_bind, Option.bind_eq_some, Option.pure_def,
        Option.some.injEq] at hres2
      obtain ⟨idv, h1, ed, h2, pV, hpV, la, hla, coords, hcoords, base, hbase, final, hfinal,
        heqpair⟩ := hres2
      rw [hp] at hpV
      injection hpV with hpV
      subst hpV
      rw [hlat] at hla
      injection hla with hla
      subst hla
      rw [floatCoords, hfl, if_pos rfl, hlng] at hcoords
      simp only [Option.map_some', Option.some.injEq] at hcoords
      subst hcoords
      rw [← heqpair]
      cases hfn : isFloatJ lng <;> simp [hfn]

/-- Witness for C7: the mapper completes on the record lacking any `lng` key
(its `lat` is the integer 40, so `lng` is never read) without invoking the
enricher, and completes on the float-coordinate record reporting the
enricher invoked. -/
theorem sb_item_enricher_spec_witness :
    (sb_item_from_crcwc "core" noLngRecord ⟨[], []⟩ (fun _ _ => .null) .null .null).map
        Prod.snd = some false ∧
    (sb_item_from_crcwc "core" floatCoordRecord ⟨[], []⟩ (fun _ _ => .null) .null .null).map
        Prod.snd = some (isFloatJ (.jfloat "-105.2")) :=
  ⟨sb_item_enricher_spec.1 "core" noLngRecord ⟨[], []⟩ (fun _ _ => .null) .null .null
     (.obj [("lat", .jint 40), ("libno", .str "L1"), ("oper", .str "Op"), ("apiwel", .null)])
     (.jint 40) rfl rfl rfl (by decide),
   sb_item_enricher_spec.2 "core" floatCoordRecord ⟨[], []⟩ (fun _ _ => .null) .null .null
     (.obj [("lat", .jfloat "40.1"), ("lng", .jfloat "-105.2"),
            ("libno", .str "L1"), ("oper", .str "Op"), ("apiwel", .null)])
     (.jfloat "40.1") (.jfloat "-105.2") rfl rfl rfl rfl (by decide)⟩
